import Mathlib

/-!
Verification of the Bakllava API server conversation-session core

Shallow embedding of `src/api_server.py` (the conversation session manager:
store, context builder, lifecycle handlers) and proofs of the spec claims.

Modelling conventions:
* Timestamps are naturals (`datetime.now()` becomes an explicit `now`
  parameter; all `datetime.now()` calls during one request share the same
  logical instant).
* The `conversations` dict is a function `String → Option Conversation`
  (exact Python dict semantics: lookup, overwrite, delete).
* `uuid.uuid4()` becomes an explicit `fresh : String` parameter.
* Python exceptions become `Except`; `HTTPException(status, detail)` is the
  `HTTPError` structure, and `str(e)` for it renders as `"<status>: <detail>"`.
* The Ollama backend `generate_response` is an oracle
  `GenCall → Except String String`; the handler records the argument record
  it passed (the `call` field of the outcome), so that what was handed to
  the backend is observable.
* Image decoding (`process_uploaded_file` + `image_to_base64`) is external
  I/O; an uploaded file is modelled by its decode result
  `Except String String` (error message, or the base64 payload).
* `temperature`/`max_tokens` are passed through opaquely (`Rat`/`Nat`);
  `frame_rate` is carried as its textual rendering, since the code only
  interpolates it into the prompt string.
-/

namespace Bakllava

/-- Timestamps in seconds (differences of `datetime.now()` values). -/
abbrev Timestamp := Nat

/-- Python `CONVERSATION_TIMEOUT = timedelta(hours=24)`, in seconds. -/
def CONVERSATION_TIMEOUT : Nat := 24 * 60 * 60

/-- The `Message` record stored in the messages list of a conversation. -/
structure Message where
  role : String
  content : String
  timestamp : Timestamp
  images : Option (List String)
deriving Repr, DecidableEq

/-- One entry of the `conversations` dict. -/
structure Conversation where
  session_id : String
  messages : List Message
  created_at : Timestamp
  last_activity : Timestamp
deriving Repr, DecidableEq

/-- The global `conversations : Dict[str, Dict]` table. -/
def Store := String → Option Conversation

/-- The empty table. -/
def Store.empty : Store := fun _ => none

/-- Dict assignment `conversations[k] = v` (overwrites). -/
def Store.set (s : Store) (k : String) (v : Conversation) : Store :=
  fun q => if q = k then some v else s q

/-- Dict deletion `del conversations[k]`. -/
def Store.del (s : Store) (k : String) : Store :=
  fun q => if q = k then none else s q

/-- Python `HTTPException(status_code, detail)`. -/
structure HTTPError where
  status : Nat
  detail : String
deriving Repr, DecidableEq

/-- Rendering of `str(e)` for an `HTTPException`: `"<status_code>: <detail>"`. -/
def excMsg (e : HTTPError) : String :=
  toString e.status ++ ": " ++ e.detail

/-- Python `cleanup_expired_conversations`: drop every entry whose idle time
`now - last_activity` exceeds `CONVERSATION_TIMEOUT`. -/
def cleanup_expired_conversations (now : Timestamp) (s : Store) : Store :=
  fun k =>
    match s k with
    | none => none
    | some c =>
        if now - c.last_activity > CONVERSATION_TIMEOUT then none else some c

/-- Python `get_or_create_conversation(session_id)`: sweep, then reuse a surviving
session named by a truthy id (refreshing `last_activity`), else insert a
fresh empty session under the fresh uuid. Returns the resolved id and the
updated store. -/
def get_or_create_conversation (session_id : Option String) (now : Timestamp)
    (fresh : String) (s : Store) : String × Store :=
  let s1 := cleanup_expired_conversations now s
  let createNew : String × Store :=
    (fresh, s1.set fresh ⟨fresh, [], now, now⟩)
  match session_id with
  | none => createNew
  | some sid =>
      if sid = "" then createNew
      else
        match s1 sid with
        | none => createNew
        | some conv => (sid, s1.set sid { conv with last_activity := now })

/-- Python `add_message_to_conversation`: append a message and refresh
`last_activity`; silently a no-op when the id is unknown. -/
def add_message_to_conversation (sid role content : String)
    (images : Option (List String)) (now : Timestamp) (s : Store) : Store :=
  match s sid with
  | none => s
  | some conv =>
      s.set sid
        { conv with
          messages := conv.messages ++ [⟨role, content, now, images⟩],
          last_activity := now }

/-- Truthiness of the stored images field: a non-None, non-empty list. -/
def hasImages (m : Message) : Bool :=
  match m.images with
  | none => false
  | some l => !l.isEmpty

/-- One history line: the role label, a colon and the content, with the
literal image marker appended when the turn carried images. -/
def formatMessage (m : Message) : String :=
  let role := if m.role = "user" then "Human" else "Assistant"
  if hasImages m then role ++ ": " ++ m.content ++ " [with image(s)]"
  else role ++ ": " ++ m.content

/-- The fixed preamble line of the rendered context. -/
def contextPreamble : String :=
  "This is a conversation. Here\x27s the conversation history:"

/-- Python `build_conversation_context`: render the session history plus the new
turn into one prompt string; pass the current images through untouched. -/
def build_conversation_context (sid : String) (current_prompt : String)
    (current_images : Option (List String)) (s : Store) :
    String × Option (List String) :=
  match s sid with
  | none => (current_prompt, current_images)
  | some conv =>
      let messages := conv.messages
      if messages.isEmpty then (current_prompt, current_images)
      else
        let recent :=
          if messages.length > 10 then messages.drop (messages.length - 10)
          else messages
        let context_parts :=
          contextPreamble
            :: recent.map formatMessage
            ++ ["Human: " ++ current_prompt, "Assistant:"]
        (String.intercalate "\n\n" context_parts, current_images)

/-- Body of the `GET /api/conversation/{session_id}` response. -/
structure ConversationResponse where
  session_id : String
  messages : List Message
  total_messages : Nat
deriving Repr, DecidableEq

/-- The `get_conversation` endpoint: 404 when the id is absent from the dict,
otherwise the stored history. -/
def get_conversation (sid : String) (s : Store) :
    Except HTTPError ConversationResponse :=
  match s sid with
  | none => .error ⟨404, "Conversation not found"⟩
  | some conv => .ok ⟨sid, conv.messages, conv.messages.length⟩

/-- The `delete_conversation` endpoint: 404 when the id is absent from the
dict, otherwise remove the entry; returns the message and the new store. -/
def delete_conversation (sid : String) (s : Store) :
    Except HTTPError (String × Store) :=
  match s sid with
  | none => .error ⟨404, "Conversation not found"⟩
  | some _ => .ok ("Conversation " ++ sid ++ " deleted", s.del sid)

/-- The argument record of one `generate_response` invocation. -/
structure GenCall where
  prompt : String
  images : Option (List String)
  temperature : Rat
  max_tokens : Nat
deriving Repr, DecidableEq

/-- The uniform `APIResponse` envelope (`processing_time` in abstract
elapsed-time units). -/
structure APIResponse where
  success : Bool
  response : Option String
  error : Option String
  processing_time : Option Nat
  session_id : Option String
deriving Repr, DecidableEq

/-- Result of running one generation endpoint handler: the envelope it
returned (every exception inside the handler body is caught by its blanket
`except Exception`, so an envelope is always produced), the store
afterwards, and the argument record passed to `generate_response`, when the
handler reached that call. -/
structure HandlerOutcome where
  resp : APIResponse
  store : Store
  call : Option GenCall

/-- The body of `POST /api/text`. -/
structure TextPromptRequest where
  prompt : String
  temperature : Rat
  max_tokens : Nat
  session_id : Option String

/-- The `POST /api/text` handler. Here `backend` is the `generate_response` oracle;
`elapsed` the measured `time.time() - start_time`. On backend failure the
session id of the envelope is `request.session_id`, the value from the request
body (the Python `except` branch reads `request.session_id`, not the
resolved local). -/
def text_prompt (req : TextPromptRequest) (now : Timestamp) (fresh : String)
    (elapsed : Nat) (backend : GenCall → Except String String) (s : Store) :
    HandlerOutcome :=
  let r := get_or_create_conversation req.session_id now fresh s
  let session_id := r.1
  let s1 := r.2
  let context_prompt := (build_conversation_context session_id req.prompt none s1).1
  let s2 := add_message_to_conversation session_id "user" req.prompt none now s1
  let call : GenCall := ⟨context_prompt, none, req.temperature, req.max_tokens⟩
  match backend call with
  | .ok response =>
      let s3 := add_message_to_conversation session_id "assistant" response none now s2
      ⟨⟨true, some response, none, some elapsed, some session_id⟩, s3, some call⟩
  | .error e =>
      ⟨⟨false, none, some e, some elapsed, req.session_id⟩, s2, some call⟩

/-- The `POST /api/image` handler. Here `image` is the decode result of the upload
(`process_uploaded_file` composed with `image_to_base64`); a decode failure
raises `HTTPException(400, "Invalid image file: ...")`, which the blanket
`except` converts into a failure envelope. The `session_id` local has
already been reassigned to the resolved id by then. -/
def image_prompt (prompt : String) (temperature : Rat) (max_tokens : Nat)
    (session : Option String) (image : Except String String)
    (now : Timestamp) (fresh : String) (elapsed : Nat)
    (backend : GenCall → Except String String) (s : Store) : HandlerOutcome :=
  let r := get_or_create_conversation session now fresh s
  let session_id := r.1
  let s1 := r.2
  match image with
  | .error e =>
      ⟨⟨false, none, some (excMsg ⟨400, "Invalid image file: " ++ e⟩),
        some elapsed, some session_id⟩, s1, none⟩
  | .ok image_b64 =>
      let built := build_conversation_context session_id prompt (some [image_b64]) s1
      let s2 := add_message_to_conversation session_id "user" prompt (some [image_b64]) now s1
      let call : GenCall := ⟨built.1, built.2, temperature, max_tokens⟩
      match backend call with
      | .ok response =>
          let s3 := add_message_to_conversation session_id "assistant" response none now s2
          ⟨⟨true, some response, none, some elapsed, some session_id⟩, s3, some call⟩
      | .error e =>
          ⟨⟨false, none, some e, some elapsed, some session_id⟩, s2, some call⟩

/-- The frame-decoding loop of `POST /api/video`: decode each frame in
order; the first failure aborts with
`HTTPException(400, f"Error processing frame {i+1}: {str(e)}")`, where `e`
is the `HTTPException(400, "Invalid image file: ...")` from
`process_uploaded_file` and the index is 1-based. -/
def process_frames : List (Except String String) → Nat → Except HTTPError (List String)
  | [], _ => .ok []
  | f :: rest, i =>
      match f with
      | .error e =>
          .error ⟨400, "Error processing frame " ++ toString i ++ ": "
            ++ excMsg ⟨400, "Invalid image file: " ++ e⟩⟩
      | .ok b64 =>
          match process_frames rest (i + 1) with
          | .error err => .error err
          | .ok l => .ok (b64 :: l)

/-- The `POST /api/video` handler. The frame-count checks run before
`get_or_create_conversation`, so a count violation leaves the store
untouched and its failure envelope still carries the *requested* session
id; frame decoding runs after session resolution. `frame_rate` is carried
as the string it renders to inside the prompt. -/
def video_frames_prompt (prompt : String) (frame_rate : String)
    (temperature : Rat) (max_tokens : Nat) (session : Option String)
    (frames : List (Except String String)) (now : Timestamp) (fresh : String)
    (elapsed : Nat) (backend : GenCall → Except String String) (s : Store) :
    HandlerOutcome :=
  if frames.isEmpty then
    ⟨⟨false, none, some (excMsg ⟨400, "No frames provided"⟩),
      some elapsed, session⟩, s, none⟩
  else if frames.length > 30 then
    ⟨⟨false, none, some (excMsg ⟨400, "Too many frames (max 30)"⟩),
      some elapsed, session⟩, s, none⟩
  else
    let r := get_or_create_conversation session now fresh s
    let session_id := r.1
    let s1 := r.2
    match process_frames frames 1 with
    | .error err =>
        ⟨⟨false, none, some (excMsg err), some elapsed, some session_id⟩, s1, none⟩
    | .ok image_b64_list =>
        let enhanced_prompt :=
          prompt ++ "\n\nThis is a sequence of " ++ toString frames.length
            ++ " video frames captured at " ++ frame_rate
            ++ " frame(s) per second."
        let built := build_conversation_context session_id enhanced_prompt (some image_b64_list) s1
        let s2 := add_message_to_conversation session_id "user" enhanced_prompt (some image_b64_list) now s1
        let call : GenCall := ⟨built.1, built.2, temperature, max_tokens⟩
        match backend call with
        | .ok response =>
            let s3 := add_message_to_conversation session_id "assistant" response none now s2
            ⟨⟨true, some response, none, some elapsed, some session_id⟩, s3, some call⟩
        | .error e =>
            ⟨⟨false, none, some e, some elapsed, some session_id⟩, s2, some call⟩

/-! Section: Helper lemmas -/

theorem Store.set_self (s : Store) (k : String) (v : Conversation) :
    s.set k v k = some v := by
  simp [Store.set]

theorem cleanup_lookup_some {now : Timestamp} {s : Store} {k : String}
    {c : Conversation} (h : s k = some c)
    (hlive : now - c.last_activity ≤ CONVERSATION_TIMEOUT) :
    cleanup_expired_conversations now s k = some c := by
  unfold cleanup_expired_conversations
  rw [h]
  simp [Nat.not_lt.mpr hlive]

theorem cleanup_lookup_expired {now : Timestamp} {s : Store} {k : String}
    {c : Conversation} (h : s k = some c)
    (hexp : now - c.last_activity > CONVERSATION_TIMEOUT) :
    cleanup_expired_conversations now s k = none := by
  unfold cleanup_expired_conversations
  rw [h]
  simp [hexp]

theorem cleanup_lookup_absent {now : Timestamp} {s : Store} {k : String}
    (h : s k = none) :
    cleanup_expired_conversations now s k = none := by
  unfold cleanup_expired_conversations
  rw [h]

theorem add_message_lookup (sid role content : String)
    (images : Option (List String)) (now : Timestamp) (s : Store)
    (conv : Conversation) (h : s sid = some conv) :
    add_message_to_conversation sid role content images now s sid =
      some { conv with
             messages := conv.messages ++ [⟨role, content, now, images⟩],
             last_activity := now } := by
  unfold add_message_to_conversation
  rw [h]
  exact Store.set_self ..

/-- Post-condition of step 1 of the request protocol: the resolved id always
names a stored session afterwards. -/
theorem get_or_create_resolved (session_id : Option String) (now : Timestamp)
    (fresh : String) (s : Store) :
    ∃ conv, (get_or_create_conversation session_id now fresh s).2
        ((get_or_create_conversation session_id now fresh s).1) = some conv := by
  unfold get_or_create_conversation
  cases session_id with
  | none => exact ⟨_, Store.set_self ..⟩
  | some sid =>
      by_cases he : sid = ""
      · simp only [he, if_pos rfl]
        exact ⟨_, Store.set_self ..⟩
      · simp only [if_neg he]
        cases hl : cleanup_expired_conversations now s sid with
        | none => exact ⟨_, Store.set_self ..⟩
        | some conv => exact ⟨_, Store.set_self ..⟩

theorem build_context_snd (sid p : String) (imgs : Option (List String))
    (s : Store) : (build_conversation_context sid p imgs s).2 = imgs := by
  unfold build_conversation_context
  cases s sid with
  | none => rfl
  | some conv =>
      dsimp only
      split
      · rfl
      · rfl

/-! Section: Concrete data shared by witnesses and counterexamples -/

def demoEmptyConv : Conversation := ⟨"s1", [], 0, 0⟩

def demoEmptyStore : Store := Store.empty.set "s1" demoEmptyConv

def demoExpiredConv : Conversation := ⟨"e1", [], 0, 0⟩

def demoExpiredStore : Store := Store.empty.set "e1" demoExpiredConv

/-! Section: C9: render on an empty history is the identity -/

/-- C9: for every session whose turn history is empty, `render`
(`build_conversation_context`) returns the new input text unchanged — no
preamble, no role prefix, no cue line. -/
theorem c9_render_empty_history_identity (s : Store) (sid p : String)
    (imgs : Option (List String)) (conv : Conversation)
    (h : s sid = some conv) (hemp : conv.messages = []) :
    build_conversation_context sid p imgs s = (p, imgs) := by
  unfold build_conversation_context
  rw [h]
  simp [hemp]

theorem c9_witness :
    build_conversation_context "s1" "hello" none demoEmptyStore = ("hello", none) :=
  c9_render_empty_history_identity demoEmptyStore "s1" "hello" none
    demoEmptyConv rfl rfl

/-! Section: C10: delete ignores expiry -/

/-- C10: `delete` applied to a session whose TTL has lapsed but which has
not been swept returns Ok and removes the entry (existence check only, no
liveness test), unlike the liveness rule the spec states for lookups. -/
theorem c10_delete_ignores_expiry (s : Store) (sid : String)
    (conv : Conversation) (now : Timestamp) (h : s sid = some conv)
    (_hexp : now - conv.last_activity > CONVERSATION_TIMEOUT) :
    delete_conversation sid s =
      .ok ("Conversation " ++ sid ++ " deleted", s.del sid) ∧
    (s.del sid) sid = none := by
  unfold delete_conversation
  rw [h]
  exact ⟨rfl, by simp [Store.del]⟩

theorem c10_witness :
    delete_conversation "e1" demoExpiredStore =
      .ok ("Conversation " ++ "e1" ++ " deleted", demoExpiredStore.del "e1") ∧
    (demoExpiredStore.del "e1") "e1" = none :=
  c10_delete_ignores_expiry demoExpiredStore "e1" demoExpiredConv 1000000
    rfl (by decide)

/-! Section: C8: append preserves insertion order -/

/-- One call to `add_message_to_conversation` on a fixed session. -/
structure AppendOp where
  role : String
  content : String
  images : Option (List String)
  time : Timestamp
deriving Repr, DecidableEq

/-- The message record an `AppendOp` appends. -/
def AppendOp.toMessage (o : AppendOp) : Message :=
  ⟨o.role, o.content, o.time, o.images⟩

/-- Replay a sequence of appends on one session. -/
def applyAppends (sid : String) (ops : List AppendOp) (s : Store) : Store :=
  ops.foldl
    (fun st o => add_message_to_conversation sid o.role o.content o.images o.time st)
    s

theorem applyAppends_messages (sid : String) (ops : List AppendOp) :
    ∀ (s : Store) (conv : Conversation), s sid = some conv →
    ∃ conv2, applyAppends sid ops s sid = some conv2 ∧
      conv2.messages = conv.messages ++ ops.map AppendOp.toMessage := by
  induction ops with
  | nil =>
      intro s conv h
      exact ⟨conv, by simpa [applyAppends] using h, by simp⟩
  | cons o rest ih =>
      intro s conv h
      have h1 := add_message_lookup sid o.role o.content o.images o.time s conv h
      obtain ⟨conv2, hl, hm⟩ := ih _ _ h1
      refine ⟨conv2, ?_, ?_⟩
      · simpa [applyAppends] using hl
      · rw [hm]
        simp [AppendOp.toMessage]

/-- C8: after any sequence of appends on one session, the stored turn list
is exactly the original turns followed by the appended turns in call order
(never reordered, never deduplicated, past turns untouched), and `get`
returns them in that order. -/
theorem c8_append_insertion_order (sid : String) (ops : List AppendOp)
    (s : Store) (conv : Conversation) (h : s sid = some conv) :
    ∃ conv2, applyAppends sid ops s sid = some conv2 ∧
      conv2.messages = conv.messages ++ ops.map AppendOp.toMessage ∧
      get_conversation sid (applyAppends sid ops s) =
        .ok ⟨sid, conv.messages ++ ops.map AppendOp.toMessage,
             (conv.messages ++ ops.map AppendOp.toMessage).length⟩ := by
  obtain ⟨conv2, hl, hm⟩ := applyAppends_messages sid ops s conv h
  refine ⟨conv2, hl, hm, ?_⟩
  unfold get_conversation
  rw [hl]
  simp [hm]

def demoOps : List AppendOp :=
  [⟨"user", "hi", none, 1⟩, ⟨"assistant", "yo", none, 2⟩, ⟨"user", "hi", none, 3⟩]

theorem c8_witness :
    ∃ conv2, applyAppends "s1" demoOps demoEmptyStore "s1" = some conv2 ∧
      conv2.messages = demoEmptyConv.messages ++ demoOps.map AppendOp.toMessage ∧
      get_conversation "s1" (applyAppends "s1" demoOps demoEmptyStore) =
        .ok ⟨"s1", demoEmptyConv.messages ++ demoOps.map AppendOp.toMessage,
             (demoEmptyConv.messages ++ demoOps.map AppendOp.toMessage).length⟩ :=
  c8_append_insertion_order "s1" demoOps demoEmptyStore demoEmptyConv rfl

/-! Section: C5: the resolveOrCreate contract -/

/-- C5: `get_or_create_conversation` with an id naming a live (non-expired)
session refreshes its `last_activity` and returns the id unchanged; for a
`None` id, an empty-string id, an unknown id, or an expired id it inserts a
fresh empty session with `created_at = last_activity = now` and returns the
fresh id. (It is a total function, so no error is ever signalled.) -/
theorem c5_resolve_or_create (now : Timestamp) (fresh : String) (s : Store) :
    (∀ sid conv, sid ≠ "" → s sid = some conv →
      now - conv.last_activity ≤ CONVERSATION_TIMEOUT →
      (get_or_create_conversation (some sid) now fresh s).1 = sid ∧
      (get_or_create_conversation (some sid) now fresh s).2 sid =
        some { conv with last_activity := now }) ∧
    (∀ session_id : Option String,
      (session_id = none ∨ session_id = some "" ∨
        ∀ sid, session_id = some sid →
          s sid = none ∨
          ∃ conv, s sid = some conv ∧
            now - conv.last_activity > CONVERSATION_TIMEOUT) →
      (get_or_create_conversation session_id now fresh s).1 = fresh ∧
      (get_or_create_conversation session_id now fresh s).2 fresh =
        some ⟨fresh, [], now, now⟩) := by
  constructor
  · intro sid conv hne h hlive
    have hc := cleanup_lookup_some h hlive
    unfold get_or_create_conversation
    simp only [if_neg hne, hc]
    exact ⟨by simp, Store.set_self ..⟩
  · intro session_id hcase
    unfold get_or_create_conversation
    cases session_id with
    | none => exact ⟨rfl, Store.set_self ..⟩
    | some sid =>
        by_cases he : sid = ""
        · simp only [he, if_pos rfl]
          exact ⟨rfl, Store.set_self ..⟩
        · have hnone : cleanup_expired_conversations now s sid = none := by
            rcases hcase with h0 | h0 | h0
            · exact absurd h0 (by simp)
            · exact absurd h0 (by simp [he])
            · rcases h0 sid rfl with h1 | ⟨conv, h1, h2⟩
              · exact cleanup_lookup_absent h1
              · exact cleanup_lookup_expired h1 h2
          simp only [if_neg he, hnone]
          exact ⟨by simp, Store.set_self ..⟩

theorem c5_witness :
    ((get_or_create_conversation (some "s1") 100 "f1" demoEmptyStore).1 = "s1" ∧
     (get_or_create_conversation (some "s1") 100 "f1" demoEmptyStore).2 "s1" =
       some { demoEmptyConv with last_activity := 100 }) ∧
    ((get_or_create_conversation none 100 "f1" demoEmptyStore).1 = "f1" ∧
     (get_or_create_conversation none 100 "f1" demoEmptyStore).2 "f1" =
       some ⟨"f1", [], 100, 100⟩) :=
  ⟨(c5_resolve_or_create 100 "f1" demoEmptyStore).1 "s1" demoEmptyConv
      (by decide) rfl (by decide),
   (c5_resolve_or_create 100 "f1" demoEmptyStore).2 none (Or.inl rfl)⟩

/-! Section: C6: the rendered context of a non-empty history -/

/-- C6: on a non-empty history, `build_conversation_context` renders exactly
the fixed preamble, one formatted line per turn for the last
`min 10 (number of turns)` turns in oldest-first order (older turns are
dropped), then `"Human: <newText>"`, then the `"Assistant:"` cue, joined by
blank lines; each history line is `"<Human|Assistant>: <text>"` with the
literal `" [with image(s)]"` suffix exactly when the turn carried a
non-empty image list. -/
theorem c6_render_window (s : Store) (sid : String) (conv : Conversation)
    (p : String) (imgs : Option (List String))
    (h : s sid = some conv) (hne : conv.messages ≠ []) :
    build_conversation_context sid p imgs s =
      (String.intercalate "\n\n"
        (contextPreamble
          :: (conv.messages.drop
                (conv.messages.length - min 10 conv.messages.length)).map
                  formatMessage
          ++ ["Human: " ++ p, "Assistant:"]), imgs) ∧
    (∀ m : Message, formatMessage m =
      (if m.role = "user" then "Human" else "Assistant") ++ ": " ++ m.content
        ++ (if hasImages m then " [with image(s)]" else "")) ∧
    (∀ m : Message, hasImages m = true ↔ ∃ l, m.images = some l ∧ l ≠ []) ∧
    (conv.messages.drop
        (conv.messages.length - min 10 conv.messages.length)).length =
      min 10 conv.messages.length := by
  refine ⟨?_, ?_, ?_, ?_⟩
  · unfold build_conversation_context
    rw [h]
    have hemp : conv.messages.isEmpty = false := by
      simpa [List.isEmpty_iff] using hne
    simp only [hemp, Bool.false_eq_true, if_false]
    by_cases hlen : conv.messages.length > 10
    · have : min 10 conv.messages.length = 10 := by omega
      rw [this]
      simp [hlen]
    · have : min 10 conv.messages.length = conv.messages.length := by omega
      rw [this]
      simp [hlen]
  · intro m
    unfold formatMessage
    by_cases hi : hasImages m
    · simp [hi]
    · simp [hi]
  · intro m
    unfold hasImages
    cases hm : m.images with
    | none => simp
    | some l => simp [List.isEmpty_iff]
  · rw [List.length_drop]
    omega

def demoMsgA : Message := ⟨"user", "hi", 1, none⟩

def demoMsgB : Message := ⟨"assistant", "yo", 2, some ["IMG"]⟩

def demoHistConv : Conversation := ⟨"h1", [demoMsgA, demoMsgB], 0, 2⟩

def demoHistStore : Store := Store.empty.set "h1" demoHistConv

theorem c6_witness :
    build_conversation_context "h1" "next" none demoHistStore =
      (String.intercalate "\n\n"
        (contextPreamble
          :: (demoHistConv.messages.drop
                (demoHistConv.messages.length -
                  min 10 demoHistConv.messages.length)).map formatMessage
          ++ ["Human: " ++ "next", "Assistant:"]), none) ∧
    (∀ m : Message, formatMessage m =
      (if m.role = "user" then "Human" else "Assistant") ++ ": " ++ m.content
        ++ (if hasImages m then " [with image(s)]" else "")) ∧
    (∀ m : Message, hasImages m = true ↔ ∃ l, m.images = some l ∧ l ≠ []) ∧
    (demoHistConv.messages.drop
        (demoHistConv.messages.length -
          min 10 demoHistConv.messages.length)).length =
      min 10 demoHistConv.messages.length :=
  c6_render_window demoHistStore "h1" demoHistConv "next" none rfl (by decide)

/-! Section: C7: only current-turn images reach the backend -/

/-- C7: the image list handed to `generate_response` is exactly the current
images of the current turn, for every history: the context builder passes the current
images through untouched, the text handler always passes `none`, the image
handler passes exactly the one freshly decoded image, and the video handler
passes exactly the freshly decoded frame list — image bytes stored on past
turns never reappear in the image list of a later call. -/
theorem c7_only_current_images :
    (∀ (sid p : String) (imgs : Option (List String)) (s : Store),
      (build_conversation_context sid p imgs s).2 = imgs) ∧
    (∀ (req : TextPromptRequest) (now : Timestamp) (fresh : String)
        (elapsed : Nat) (backend : GenCall → Except String String) (s : Store)
        (c : GenCall),
      (text_prompt req now fresh elapsed backend s).call = some c →
      c.images = none) ∧
    (∀ (p : String) (temp : Rat) (mt : Nat) (session : Option String)
        (b64 : String) (now : Timestamp) (fresh : String) (elapsed : Nat)
        (backend : GenCall → Except String String) (s : Store) (c : GenCall),
      (image_prompt p temp mt session (.ok b64) now fresh elapsed backend s).call
          = some c →
      c.images = some [b64]) ∧
    (∀ (p fr : String) (temp : Rat) (mt : Nat) (session : Option String)
        (frames : List (Except String String)) (L : List String)
        (now : Timestamp) (fresh : String) (elapsed : Nat)
        (backend : GenCall → Except String String) (s : Store) (c : GenCall),
      process_frames frames 1 = .ok L →
      (video_frames_prompt p fr temp mt session frames now fresh elapsed backend s).call
          = some c →
      c.images = some L) := by
  refine ⟨build_context_snd, ?_, ?_, ?_⟩
  · intro req now fresh elapsed backend s c hc
    unfold text_prompt at hc
    dsimp only at hc
    split at hc
    · cases hc
      rfl
    · cases hc
      rfl
  · intro p temp mt session b64 now fresh elapsed backend s c hc
    unfold image_prompt at hc
    dsimp only at hc
    split at hc
    · cases hc
      exact build_context_snd ..
    · cases hc
      exact build_context_snd ..
  · intro p fr temp mt session frames L now fresh elapsed backend s c hok hc
    unfold video_frames_prompt at hc
    by_cases hemp : frames.isEmpty
    · simp only [hemp, if_pos rfl] at hc
      cases hc
    · simp only [hemp, Bool.false_eq_true, if_false] at hc
      by_cases hlen : frames.length > 30
      · simp only [if_pos hlen] at hc
        cases hc
      · simp only [if_neg hlen] at hc
        rw [hok] at hc
        dsimp only at hc
        split at hc
        · cases hc
          exact build_context_snd ..
        · cases hc
          exact build_context_snd ..

theorem c7_witness :
    (GenCall.mk "p" (some ["IMG"]) 1 2048).images = some ["IMG"] :=
  c7_only_current_images.2.2.1 "p" 1 2048 none "IMG" 0 "f1" 1
    (fun _ => .ok "r") Store.empty (GenCall.mk "p" (some ["IMG"]) 1 2048) rfl

/-! Section: C1: reachability of an expired-but-unswept session -/

/-- C1 counterexample: a session whose idle time exceeds the TTL and that is
still physically present in the store is *returned* by `get_conversation`
(the endpoint checks existence only, never liveness), so the lookup does not
behave as NotFound. -/
theorem c1_counterexample :
    demoExpiredStore "e1" = some demoExpiredConv ∧
    (1000000 : Timestamp) - demoExpiredConv.last_activity
        > CONVERSATION_TIMEOUT ∧
    get_conversation "e1" demoExpiredStore = .ok ⟨"e1", [], 0⟩ := by
  refine ⟨rfl, by decide, rfl⟩

/-- C1 (amended): for a session whose idle time exceeds the TTL but which
has not been swept, `get_or_create_conversation` called with its id does
sweep first and therefore allocates and returns the fresh id, never the
expired one; but `get_conversation` on that id returns the stored session
(existence check only) instead of behaving as NotFound. -/
theorem c1_amended_expired_reachability (s : Store) (sid : String)
    (conv : Conversation) (now : Timestamp) (fresh : String)
    (h : s sid = some conv)
    (hexp : now - conv.last_activity > CONVERSATION_TIMEOUT)
    (hfr : fresh ≠ sid) :
    (get_or_create_conversation (some sid) now fresh s).1 = fresh ∧
    (get_or_create_conversation (some sid) now fresh s).1 ≠ sid ∧
    get_conversation sid s =
      .ok ⟨sid, conv.messages, conv.messages.length⟩ := by
  have hnone := cleanup_lookup_expired h hexp
  have h1 : (get_or_create_conversation (some sid) now fresh s).1 = fresh := by
    unfold get_or_create_conversation
    by_cases he : sid = ""
    · simp [he]
    · simp [if_neg he, hnone]
  refine ⟨h1, by rw [h1]; exact hfr, ?_⟩
  unfold get_conversation
  rw [h]

theorem c1_witness :
    (get_or_create_conversation (some "e1") 1000000 "f9" demoExpiredStore).1
        = "f9" ∧
    (get_or_create_conversation (some "e1") 1000000 "f9" demoExpiredStore).1
        ≠ "e1" ∧
    get_conversation "e1" demoExpiredStore =
      .ok ⟨"e1", demoExpiredConv.messages, demoExpiredConv.messages.length⟩ :=
  c1_amended_expired_reachability demoExpiredStore "e1" demoExpiredConv
    1000000 "f9" rfl (by decide) (by decide)

/-! Section: C2: failure after the user turn was appended -/

/-- The text endpoint run whose backend fails, on a request that carries no
session id: the session is freshly created, so the
`request.session_id` is `none` while the resolved id is `"f1"`. -/
def c2out : HandlerOutcome :=
  text_prompt ⟨"hi", 1, 2048, none⟩ 0 "f1" 5 (fun _ => .error "boom")
    Store.empty

/-- C2 counterexample: after a backend failure the session id field of the
envelope is the *requested* id (`None` here), not the id of the resolved
session: the
resolved session `"f1"` exists in the store (holding the unanswered user
turn), yet the `session_id` field of the envelope is `none`. -/
theorem c2_counterexample :
    c2out.resp.success = false ∧
    c2out.store "f1" = some ⟨"f1", [⟨"user", "hi", 0, none⟩], 0, 0⟩ ∧
    c2out.resp.session_id = none ∧
    (none : Option String) ≠ some "f1" := by
  refine ⟨rfl, rfl, rfl, by decide⟩

/-- C2 (amended): if the backend call fails after the user turn was
appended, the turn list of the resolved session ends with that user turn and no
assistant turn, and the handler returns the envelope
`{success := false, error, processing_time, session_id}` — but its
`session_id` field carries the session id *from the request* (possibly
`none`), which equals the id of the resolved session only when the request named
a surviving session. -/
theorem c2_amended_failure_envelope (req : TextPromptRequest)
    (now : Timestamp) (fresh : String) (elapsed : Nat) (msg : String)
    (s : Store) (conv1 : Conversation)
    (h1 : (get_or_create_conversation req.session_id now fresh s).2
            (get_or_create_conversation req.session_id now fresh s).1
          = some conv1) :
    (text_prompt req now fresh elapsed (fun _ => .error msg) s).resp =
      ⟨false, none, some msg, some elapsed, req.session_id⟩ ∧
    (text_prompt req now fresh elapsed (fun _ => .error msg) s).store
        (get_or_create_conversation req.session_id now fresh s).1 =
      some { conv1 with
             messages := conv1.messages ++ [⟨"user", req.prompt, now, none⟩],
             last_activity := now } := by
  unfold text_prompt
  dsimp only
  exact ⟨rfl, add_message_lookup _ _ _ _ _ _ _ h1⟩

theorem c2_witness :
    (text_prompt ⟨"hi", 1, 2048, none⟩ 0 "f1" 5 (fun _ => .error "boom")
        Store.empty).resp =
      ⟨false, none, some "boom", some 5, none⟩ ∧
    (text_prompt ⟨"hi", 1, 2048, none⟩ 0 "f1" 5 (fun _ => .error "boom")
        Store.empty).store
        (get_or_create_conversation none 0 "f1" Store.empty).1 =
      some { Conversation.mk "f1" [] 0 0 with
             messages := [] ++ [⟨"user", "hi", 0, none⟩],
             last_activity := 0 } :=
  c2_amended_failure_envelope ⟨"hi", 1, 2048, none⟩ 0 "f1" 5 "boom"
    Store.empty (Conversation.mk "f1" [] 0 0) rfl

/-! Section: C3: invalid input is caught into the envelope, not a transport error -/

/-- The video endpoint run at the failing input: 31 decodable frames. -/
def c3out : HandlerOutcome :=
  video_frames_prompt "p" "1.0" 1 2048 none
    (List.replicate 31 (.ok "A")) 0 "f1" 3 (fun _ => .ok "r") Store.empty

/-- C3: evaluating the code at the failing input (31 frames). The own
`HTTPException(400, "Too many frames (max 30)")` of the handler is caught by its
blanket `except Exception`, so the request *does* return the uniform
`{success, error, processing_time, session_id}` envelope (with
`success = false`) instead of a transport-level error status; no backend
call is made and the store is untouched. -/
theorem c3_envelope_not_transport_error :
    c3out.resp.success = false ∧
    c3out.resp.error = some (excMsg ⟨400, "Too many frames (max 30)"⟩) ∧
    c3out.resp.processing_time = some 3 ∧
    c3out.resp.session_id = none ∧
    c3out.call = none ∧
    c3out.store "f1" = none := by
  refine ⟨rfl, rfl, rfl, rfl, rfl, rfl⟩

/-! Section: C4: the frame-count guard runs before any session mutation -/

/-- C4: a multi-frame request with 0 frames or more than 30 frames is
rejected with a structured failure envelope before `get_or_create` or any
append runs — the returned store is the input store, unchanged in every
respect — and no backend call is made; a request with exactly 30 frames
passes the frame-count check (when its frames decode, the backend call is
reached). -/
theorem c4_frame_count_guard (p fr : String) (temp : Rat) (mt : Nat)
    (session : Option String) (frames : List (Except String String))
    (now : Timestamp) (fresh : String) (elapsed : Nat)
    (backend : GenCall → Except String String) (s : Store) :
    (frames = [] ∨ frames.length > 30 →
      (video_frames_prompt p fr temp mt session frames now fresh elapsed
          backend s).resp.success = false ∧
      ((video_frames_prompt p fr temp mt session frames now fresh elapsed
          backend s).resp.error).isSome = true ∧
      (video_frames_prompt p fr temp mt session frames now fresh elapsed
          backend s).store = s ∧
      (video_frames_prompt p fr temp mt session frames now fresh elapsed
          backend s).call = none) ∧
    (frames.length = 30 →
      ∀ L, process_frames frames 1 = .ok L →
      ((video_frames_prompt p fr temp mt session frames now fresh elapsed
          backend s).call).isSome = true) := by
  constructor
  · intro hbad
    rcases hbad with hnil | hlen
    · subst hnil
      unfold video_frames_prompt
      exact ⟨rfl, rfl, rfl, rfl⟩
    · have hemp : frames.isEmpty = false := by
        cases frames with
        | nil => simp at hlen
        | cons a l => rfl
      unfold video_frames_prompt
      simp only [hemp, Bool.false_eq_true, if_false, if_pos hlen]
      exact ⟨by trivial, by trivial, by trivial, by trivial⟩
  · intro h30 L hok
    have hemp : frames.isEmpty = false := by
      cases frames with
      | nil => simp at h30
      | cons a l => rfl
    have hlen : ¬ frames.length > 30 := by omega
    unfold video_frames_prompt
    simp only [hemp, Bool.false_eq_true, if_false, if_neg hlen]
    rw [hok]
    dsimp only
    split
    · rfl
    · rfl

theorem c4_witness :
    ((video_frames_prompt "p" "1.0" 1 2048 none
        (List.replicate 31 (.ok "A")) 0 "f1" 3 (fun _ => .ok "r")
        Store.empty).store = Store.empty ∧
     (video_frames_prompt "p" "1.0" 1 2048 none
        (List.replicate 31 (.ok "A")) 0 "f1" 3 (fun _ => .ok "r")
        Store.empty).resp.success = false) ∧
    ((video_frames_prompt "p" "1.0" 1 2048 none
        (List.replicate 30 (.ok "A")) 0 "f1" 3 (fun _ => .ok "r")
        Store.empty).call).isSome = true := by
  have h := c4_frame_count_guard "p" "1.0" 1 2048 none
    (List.replicate 31 (.ok "A")) 0 "f1" 3 (fun _ => .ok "r") Store.empty
  have h30 := c4_frame_count_guard "p" "1.0" 1 2048 none
    (List.replicate 30 (.ok "A")) 0 "f1" 3 (fun _ => .ok "r") Store.empty
  have hb := h.1 (Or.inr (by simp))
  refine ⟨⟨hb.2.2.1, hb.1⟩, ?_⟩
  exact h30.2 (by simp) (List.replicate 30 "A") (by rfl)

end Bakllava
